import Mathlib

/-!
Verification development for the tnnl coordination server
(`src/backend/coordination-server/src`).

The Rust sources are shallowly embedded as Lean definitions:
* `HashMap` becomes an association list with insert-or-replace semantics;
* `u16` arithmetic is `Nat` with an explicit `% 65536` where the source
  increments a `u16` counter;
* `Uuid::new_v4()` and `chrono::Utc::now()` are modelled by freshness
  counters threaded through the state;
* randomness (`rand::thread_rng`) is modelled by oracle parameters: the
  caller supplies arbitrary naturals and the generator reduces them to the
  index/range the source samples uniformly;
* fallible operations return `Except`, paired with the (possibly updated)
  registry state, mirroring early returns that leave the state untouched.
-/

namespace Tnnl

/-- Insert-or-replace of one binding, modelling `HashMap::insert`.  The new
binding is placed in front and any previous binding for the key is dropped
(iteration order of a hash map is unspecified, so only the map view matters). -/
def mapInsert {α β : Type} [DecidableEq α] (k : α) (v : β)
    (l : List (α × β)) : List (α × β) :=
  (k, v) :: l.filter fun p => decide (p.1 ≠ k)

/-- Remove the binding of a key, modelling `HashMap::remove`. -/
def mapErase {α β : Type} [DecidableEq α] (k : α)
    (l : List (α × β)) : List (α × β) :=
  l.filter fun p => decide (p.1 ≠ k)

/-- Lookup, modelling `HashMap::get` / `contains_key`. -/
def mapFind {α β : Type} [DecidableEq α] (k : α) : List (α × β) → Option β
  | [] => none
  | p :: l => if p.1 = k then some p.2 else mapFind k l

/-! ## tunnel.rs : data model -/

/-- `Tunnel` (tunnel.rs lines 10-18).  `Uuid` values are modelled as `Nat`
drawn from a freshness counter, the `chrono` timestamp as a logical clock,
and `port : u16` as a `Nat` below 2^16. -/
structure Tunnel where
  id : Nat
  subdomain : String
  user_id : Nat
  is_custom : Bool
  created_at : Nat
  port : Nat
  password : Option String
deriving DecidableEq, Repr

/-- `TunnelManager` (tunnel.rs lines 20-24): subdomain→tunnel map,
port→tunnel-id map, and the `u16` next-port counter.  The two extra counters
model the sources of fresh UUIDs and timestamps. -/
structure TunnelManager where
  tunnels : List (String × Tunnel)
  ports : List (Nat × Nat)
  next_port : Nat
  fresh_uuid : Nat
  now : Nat
deriving DecidableEq, Repr

/-- `TunnelManager::new` (tunnel.rs lines 27-33): empty maps, counter at 10000. -/
def TunnelManager.new : TunnelManager :=
  { tunnels := [], ports := [], next_port := 10000, fresh_uuid := 0, now := 0 }

/-- `generate_random_subdomain`'s numeric suffix, `rng.gen_range(1000..9999)`
(tunnel.rs line 142): a uniform sample from the half-open interval
`[1000, 9999)`, i.e. `1000 + r % 8999` for an arbitrary oracle value `r`. -/
def gen_range_1000_9999 (r : Nat) : Nat := 1000 + r % 8999

/-- The fixed adjective vocabulary (tunnel.rs lines 132-134). -/
def adjectives : List String :=
  ["happy", "fuzzy", "clever", "swift", "bright", "calm", "brave", "wild",
   "cool", "warm"]

/-- The fixed noun vocabulary (tunnel.rs lines 135-137). -/
def nouns : List String :=
  ["cat", "dog", "bird", "fish", "bear", "wolf", "fox", "deer", "owl", "lion"]

/-- `generate_random_subdomain` (tunnel.rs lines 128-145).  `choose` picks a
uniformly random element, modelled by an arbitrary oracle index reduced mod
the vocabulary size; the suffix is `gen_range_1000_9999`. -/
def generate_random_subdomain (ai ni rn : Nat) : String :=
  let adj := adjectives.getD (ai % adjectives.length) ""
  let noun := nouns.getD (ni % nouns.length) ""
  adj ++ "-" ++ noun ++ "-" ++ Nat.repr (gen_range_1000_9999 rn)

/-- `is_valid_subdomain` (tunnel.rs lines 148-159).  Rust's byte length and
Lean's character count agree on every string the remaining checks can accept
(ASCII only), and both models reject all others, so `s.data.length` is used.
`starts_with('-')` / `ends_with('-')` are the char-pattern variants. -/
def is_valid_subdomain (s : String) : Bool :=
  if s.data.length < 3 || s.data.length > 63 then false
  else
    (s.data.all fun c => c.isLower || c.isDigit || c == '-')
      && !(s.data.head? == some '-') && !(s.data.getLast? == some '-')

/-- `TunnelManager::create_tunnel` (tunnel.rs lines 69-106): allocate the
next port (a `u16` increment, hence `% 65536`), build the record, then insert
into both maps.  The Rust function returns `anyhow::Result` but has no error
path, so the model is total. -/
def create_tunnel (m : TunnelManager) (user_id : Nat) (subdomain : String)
    (is_custom : Bool) (password : Option String) : Tunnel × TunnelManager :=
  let port := m.next_port
  let next := (m.next_port + 1) % 65536
  let t : Tunnel :=
    { id := m.fresh_uuid, subdomain := subdomain, user_id := user_id,
      is_custom := is_custom, created_at := m.now, port := port,
      password := password }
  (t, { tunnels := mapInsert subdomain t m.tunnels,
        ports := mapInsert port t.id m.ports,
        next_port := next, fresh_uuid := m.fresh_uuid + 1, now := m.now + 1 })

/-- `TunnelManager::create_random_tunnel` (tunnel.rs lines 36-44): generate a
subdomain and insert it, with no collision check. -/
def create_random_tunnel (m : TunnelManager) (user_id : Nat)
    (password : Option String) (ai ni rn : Nat) : Tunnel × TunnelManager :=
  create_tunnel m user_id (generate_random_subdomain ai ni rn) false password

/-- `TunnelManager::create_custom_tunnel` (tunnel.rs lines 48-67): validate,
check existence (under a read lock that is dropped before inserting), then
insert.  Early error returns leave the manager untouched. -/
def create_custom_tunnel (m : TunnelManager) (user_id : Nat)
    (subdomain : String) (password : Option String) :
    Except String Tunnel × TunnelManager :=
  if !(is_valid_subdomain subdomain) then
    (.error "Invalid subdomain format", m)
  else if (mapFind subdomain m.tunnels).isSome then
    (.error "Subdomain already in use", m)
  else
    let r := create_tunnel m user_id subdomain true password
    (.ok r.1, r.2)

/-- `TunnelManager::get_tunnel` (tunnel.rs lines 110-113). -/
def get_tunnel (m : TunnelManager) (subdomain : String) : Option Tunnel :=
  mapFind subdomain m.tunnels

/-- `TunnelManager::remove_tunnel` (tunnel.rs lines 116-125): remove from the
subdomain map and, only when found, also from the port map. -/
def remove_tunnel (m : TunnelManager) (subdomain : String) :
    Except String Unit × TunnelManager :=
  match mapFind subdomain m.tunnels with
  | some t =>
      (.ok (), { m with tunnels := mapErase subdomain m.tunnels,
                        ports := mapErase t.port m.ports })
  | none => (.error "Tunnel not found", m)

/-! ## Registry operation sequences

The registry's public API, as driven by sessions: random allocation, custom
allocation and removal.  `regRun` is any interleaving of these operations;
`regTrace` records the ports handed out and freed along the way. -/

/-- One call into the `TunnelManager` API. -/
inductive RegOp where
  | allocRandom (user_id : Nat) (password : Option String) (ai ni rn : Nat)
  | allocCustom (user_id : Nat) (subdomain : String) (password : Option String)
  | remove (subdomain : String)
deriving DecidableEq, Repr

/-- State reached after one registry operation. -/
def regStep (m : TunnelManager) (op : RegOp) : TunnelManager :=
  match op with
  | .allocRandom u pw ai ni rn => (create_random_tunnel m u pw ai ni rn).2
  | .allocCustom u s pw => (create_custom_tunnel m u s pw).2
  | .remove s => (remove_tunnel m s).2

/-- State reached after a sequence of registry operations. -/
def regRun (m : TunnelManager) : List RegOp → TunnelManager
  | [] => m
  | op :: ops => regRun (regStep m op) ops

/-- A port being handed out by `create_tunnel`, or freed by `remove_tunnel`. -/
inductive PortEvent where
  | alloc (p : Nat)
  | free (p : Nat)
deriving DecidableEq, Repr

/-- The port events one operation emits; the branch conditions mirror the
operations (random allocation is unconditional, custom allocation only on
passing validation and the existence check, removal only when found). -/
def regStepEvents (m : TunnelManager) (op : RegOp) : List PortEvent :=
  match op with
  | .allocRandom _ _ _ _ _ => [.alloc m.next_port]
  | .allocCustom _ s _ =>
      if !(is_valid_subdomain s) then []
      else if (mapFind s m.tunnels).isSome then []
      else [.alloc m.next_port]
  | .remove s =>
      match mapFind s m.tunnels with
      | some t => [.free t.port]
      | none => []

/-- Port events of a whole operation sequence, in order. -/
def regTrace (m : TunnelManager) : List RegOp → List PortEvent
  | [] => []
  | op :: ops => regStepEvents m op ++ regTrace (regStep m op) ops

/-- C1's invariant: simultaneously active tunnels have pairwise distinct
subdomains and pairwise distinct ports. -/
def DistinctActive (m : TunnelManager) : Prop :=
  m.tunnels.Pairwise (fun a b => a.2.subdomain ≠ b.2.subdomain)
  ∧ m.tunnels.Pairwise (fun a b => a.2.port ≠ b.2.port)

/-- Inductive invariant after `n` allocations: the counter sits at
`(10000 + n) % 65536`, every active port was handed out by one of the first
`n` allocations, active ports are pairwise distinct, every record stores its
own key as subdomain, and keys are pairwise distinct. -/
def ManagerInv (m : TunnelManager) (n : Nat) : Prop :=
  m.next_port = (10000 + n) % 65536
  ∧ (∀ p ∈ m.tunnels, ∃ i, i < n ∧ p.2.port = (10000 + i) % 65536)
  ∧ m.tunnels.Pairwise (fun a b => a.2.port ≠ b.2.port)
  ∧ (∀ p ∈ m.tunnels, p.2.subdomain = p.1)
  ∧ m.tunnels.Pairwise (fun a b => a.1 ≠ b.1)

/-- No port is ever handed out again after having been freed. -/
def NoRealloc (evs : List PortEvent) : Prop :=
  ∀ i j p, i < j → evs.get? i = some (.free p) →
    evs.get? j ≠ some (.alloc p)

/-- An operation that is a random allocation (these never fail). -/
def isRandAlloc (op : RegOp) : Prop :=
  ∃ u pw ai ni rn, op = RegOp.allocRandom u pw ai ni rn

/-- The random-allocation operation with all oracle inputs fixed to zero;
its generated subdomain is `happy-cat-1000`. -/
def randOp : RegOp := RegOp.allocRandom 0 none 0 0 0

/-- Tunnel allocated by the first operation of `wrapOps`/`reallocOps`. -/
def tA : Tunnel :=
  { id := 0, subdomain := "aaa", user_id := 0, is_custom := true,
    created_at := 0, port := 10000, password := none }

/-- Registry state after allocating `"aaa"` on a fresh registry. -/
def mA : TunnelManager :=
  { tunnels := [("aaa", tA)], ports := [(10000, 0)], next_port := 10001,
    fresh_uuid := 1, now := 1 }

/-- Registry state after allocating and then removing `"aaa"`. -/
def mB : TunnelManager :=
  { tunnels := [], ports := [], next_port := 10001, fresh_uuid := 1, now := 1 }

/-- 1 + 65535 + 1 = 65537 allocations: exactly enough for the `u16` port
counter to wrap around and hand out port 10000 a second time while the
first tunnel holding it is still active. -/
def wrapOps : List RegOp :=
  RegOp.allocCustom 0 "aaa" none
    :: (List.replicate 65535 randOp ++ [RegOp.allocCustom 0 "ccc" none])

/-- Allocate port 10000, free it again, then allocate 65536 more times so
the wrapped counter hands the freed port 10000 out again. -/
def reallocOps : List RegOp :=
  RegOp.allocCustom 0 "aaa" none :: RegOp.remove "aaa"
    :: List.replicate 65536 randOp

/-- Concrete collision scenario used to witness C10. -/
def collideTunnel : Tunnel :=
  { id := 42, subdomain := "happy-cat-1000", user_id := 7, is_custom := false,
    created_at := 3, port := 9999, password := none }

/-- Registry already holding `happy-cat-1000` on port 9999. -/
def collideManager : TunnelManager :=
  { tunnels := [("happy-cat-1000", collideTunnel)], ports := [(9999, 42)],
    next_port := 10000, fresh_uuid := 43, now := 4 }

/-! ## auth.rs : token verification -/

/-- A structurally well-formed bearer token (auth.rs `Claims`, lines 8-15).
`sub_id` is the subject claim as a parsed identifier (`none` when it does
not parse as a UUID); `sig_secret` is the secret the HS256 signature
verifies under (`none` for a signature valid under no key); `aud` is the
audience claim. -/
structure Token where
  sub_id : Option Nat
  email : String
  sig_secret : Option String
  expired : Bool
  aud : String
deriving DecidableEq, Repr

/-- `AuthService` (auth.rs lines 17-24). -/
structure AuthService where
  jwt_secret : String
deriving DecidableEq, Repr

/-- `AuthService::verify_supabase_token` (auth.rs lines 28-50): checks the
signature against the service secret, expiry, the fixed audience
`authenticated`, and that the subject parses as an identifier. -/
def verify_supabase_token (svc : AuthService) (tok : Token) :
    Except String (Nat × String) :=
  if tok.sig_secret ≠ some svc.jwt_secret ∨ tok.expired = true
      ∨ tok.aud ≠ "authenticated" then
    .error "Token validation failed"
  else
    match tok.sub_id with
    | none => .error "Invalid user ID in token"
    | some uid => .ok (uid, tok.email)

/-- `AuthService::verify_token_insecure` (auth.rs lines 55-77): signature,
expiry, not-before and audience validation are all disabled; an unparsable
subject falls back to a fresh random id (`Uuid::new_v4`, oracle-supplied). -/
def verify_token_insecure (svc : AuthService) (tok : Token)
    (fresh : Nat) : Except String (Nat × String) :=
  .ok (tok.sub_id.getD fresh, tok.email)

/-! ## main.rs : sessions and the protocol dispatcher -/

/-- A connected client (main.rs `Client`, lines 21-26); the outbound channel
is modelled by `sendFrame` events, and the id is the key in the client map. -/
structure Client where
  user_id : Option Nat
  tunnels : List Tunnel
deriving DecidableEq, Repr

/-- The persisted state the dispatcher touches (db.rs): users and the
subdomains holding a tunnel record. -/
structure DbState where
  users : List (Nat × String)
  tunnel_records : List String
deriving DecidableEq, Repr

/-- `db::create_tunnel_record` (db.rs lines 44-67). -/
def db_create_tunnel_record (db : DbState) (s : String) : DbState :=
  { db with tunnel_records := s :: db.tunnel_records }

/-- `db::delete_tunnel_record` (db.rs lines 101-110). -/
def db_delete_tunnel_record (db : DbState) (s : String) : DbState :=
  { db with tunnel_records := db.tunnel_records.filter fun x => decide (x ≠ s) }

/-- `AppState` (main.rs lines 29-35); the nginx manager is stateless. -/
structure AppState where
  clients : List (Nat × Client)
  tunnel_manager : TunnelManager
  db : DbState
  auth_service : AuthService
deriving DecidableEq, Repr

/-- Outbound frames (the `serde_json::json!` responses of main.rs). -/
inductive Frame where
  | error (message : String)
  | auth_success (user_id : Nat) (email : String)
  | tunnel_assigned (t : Tunnel)
  | ssh_key_registered
  | heartbeat_ack
deriving DecidableEq, Repr

/-- Parsed inbound messages (the `type` dispatch of `handle_message`);
`Option` fields model missing JSON fields. -/
inductive Msg where
  | auth (token : Option Token)
  | request_tunnel (password : Option String)
  | register_ssh_key (ssh_public_key : Option String)
  | heartbeat
  | unknown
deriving DecidableEq, Repr

/-- Externally visible calls made while handling one message, in program
order. -/
inductive Event where
  | sendFrame (client_id : Nat) (f : Frame)
  | dbUpsertUser (user_id : Nat) (email : String)
  | dbCreateTunnel (subdomain : String)
  | dbDeleteTunnel (subdomain : String)
  | nginxCreate (subdomain : String)
  | nginxRemove (subdomain : String)
  | registryInsert (subdomain : String)
  | registryRemove (subdomain : String)
  | sshValidate
  | sshStore
  | sshAppend
deriving DecidableEq, Repr

/-- Runtime environment and outcome oracle for one `handle_message` call:
the `DEV_MODE` environment variable, the `Uuid::new_v4` fallback of the
insecure verifier, the random-subdomain oracle, and the outcome of each
external call (`none` = success, `some e` = failure with message `e`). -/
structure Env where
  dev_mode : Option String
  fresh : Nat
  ai : Nat
  ni : Nat
  rn : Nat
  db_upsert_err : Option String
  db_create_err : Option String
  nginx_create_err : Option String
  ssh_invalid_err : Option String
  ssh_store_err : Option String
  ssh_append_err : Option String
deriving DecidableEq, Repr

/-- Rust's `to_lowercase()` as applied to the `DEV_MODE` flag value
(main.rs line 227); ASCII lowering suffices for the compared values. -/
def str_to_lower (s : String) : String := String.mk (s.data.map Char.toLower)

/-- `send_error` (main.rs lines 443-452): sends one error frame when the
client is still registered, otherwise nothing. -/
def send_error (clients : List (Nat × Client)) (client_id : Nat)
    (message : String) : List Event :=
  match mapFind client_id clients with
  | some _ => [.sendFrame client_id (.error message)]
  | none => []

/-- `handle_message` (main.rs lines 196-440), over parsed frames.  External
calls have oracle-determined outcomes and are recorded as events in program
order.  Note that `DEV_MODE` is read from the runtime environment inside
the auth branch (main.rs lines 225-227), and that in the `request_tunnel`
branch a persistence failure returns without touching the registry
(main.rs lines 315-319) while an nginx failure sends the error frame first
and rolls back registry and persistence afterwards, with no proxy teardown
call (main.rs lines 322-330). -/
def handle_message (env : Env) (st : AppState) (client_id : Nat) (msg : Msg) :
    AppState × List Event :=
  match msg with
  | .auth tok? =>
    match tok? with
    | none => (st, send_error st.clients client_id "Missing token")
    | some tok =>
      let use_dev_mode := str_to_lower (env.dev_mode.getD "false") == "true"
      let vres :=
        if use_dev_mode then verify_token_insecure st.auth_service tok env.fresh
        else verify_supabase_token st.auth_service tok
      match vres with
      | .error _ => (st, send_error st.clients client_id "Invalid token")
      | .ok (user_id, email) =>
        match env.db_upsert_err with
        | some _ =>
          (st, .dbUpsertUser user_id email
                :: send_error st.clients client_id "Database error")
        | none =>
          let clients' :=
            match mapFind client_id st.clients with
            | some c =>
                mapInsert client_id ({ c with user_id := some user_id })
                  st.clients
            | none => st.clients
          ({ st with clients := clients' },
           .dbUpsertUser user_id email
             :: (match mapFind client_id clients' with
                 | some _ =>
                     [Event.sendFrame client_id (.auth_success user_id email)]
                 | none => []))
  | .request_tunnel password? =>
    match mapFind client_id st.clients with
    | none => (st, [])
    | some c =>
      match c.user_id with
      | none => (st, send_error st.clients client_id "Not authenticated")
      | some user_id =>
        let r := create_random_tunnel st.tunnel_manager user_id password?
          env.ai env.ni env.rn
        let t := r.1
        let st1 := { st with tunnel_manager := r.2 }
        match env.db_create_err with
        | some _ =>
          (st1, [Event.registryInsert t.subdomain,
                 Event.dbCreateTunnel t.subdomain]
                ++ send_error st1.clients client_id "Database error")
        | none =>
          let st2 := { st1 with db := db_create_tunnel_record st1.db t.subdomain }
          match env.nginx_create_err with
          | some e =>
            let st3 := { st2 with
              tunnel_manager := (remove_tunnel st2.tunnel_manager t.subdomain).2 }
            let st4 := { st3 with db := db_delete_tunnel_record st3.db t.subdomain }
            (st4, [Event.registryInsert t.subdomain,
                   Event.dbCreateTunnel t.subdomain,
                   Event.nginxCreate t.subdomain]
                  ++ send_error st2.clients client_id
                       ("Nginx configuration failed: " ++ e)
                  ++ [Event.registryRemove t.subdomain,
                      Event.dbDeleteTunnel t.subdomain])
          | none =>
            let clients' :=
              match mapFind client_id st2.clients with
              | some c2 =>
                  mapInsert client_id ({ c2 with tunnels := c2.tunnels ++ [t] })
                    st2.clients
              | none => st2.clients
            ({ st2 with clients := clients' },
             [Event.registryInsert t.subdomain,
              Event.dbCreateTunnel t.subdomain,
              Event.nginxCreate t.subdomain]
               ++ (match mapFind client_id clients' with
                   | some _ => [Event.sendFrame client_id (.tunnel_assigned t)]
                   | none => []))
  | .register_ssh_key key? =>
    match mapFind client_id st.clients with
    | none => (st, [])
    | some c =>
      match c.user_id with
      | none => (st, send_error st.clients client_id "Not authenticated")
      | some _user_id =>
        match key? with
        | none => (st, send_error st.clients client_id "Missing ssh_public_key")
        | some _key =>
          match env.ssh_invalid_err with
          | some e =>
            (st, Event.sshValidate
                  :: send_error st.clients client_id ("Invalid SSH key: " ++ e))
          | none =>
            match env.ssh_store_err with
            | some _ =>
              (st, [Event.sshValidate, Event.sshStore]
                    ++ send_error st.clients client_id "Failed to store SSH key")
            | none =>
              match env.ssh_append_err with
              | some _ =>
                (st, [Event.sshValidate, Event.sshStore, Event.sshAppend]
                      ++ send_error st.clients client_id
                           "Failed to register SSH key")
              | none =>
                (st, [Event.sshValidate, Event.sshStore, Event.sshAppend]
                      ++ (match mapFind client_id st.clients with
                          | some _ =>
                              [Event.sendFrame client_id .ssh_key_registered]
                          | none => []))
  | .heartbeat =>
    (st, match mapFind client_id st.clients with
         | some _ => [Event.sendFrame client_id .heartbeat_ack]
         | none => [])
  | .unknown => (st, send_error st.clients client_id "Unknown message type")

/-! ## Lock granularity of create_custom_tunnel

`create_custom_tunnel` (tunnel.rs lines 48-67) checks existence under a read
lock that is dropped at line 64; `create_tunnel` then re-acquires write
locks.  Each lock-protected section is one atomic step; between the steps of
one session, another session may run.  (Collapsing the lock-free validation
into the check step only removes interleavings, so any race exhibited here
exists in the source.) -/

/-- One session running `create_custom_tunnel`, split at its lock
boundaries. -/
inductive CustomSession where
  | start (user_id : Nat) (subdomain : String) (password : Option String)
  | checked (user_id : Nat) (subdomain : String) (password : Option String)
  | done (t : Tunnel)
  | failed (e : String)
deriving DecidableEq, Repr

/-- Run one atomic section of a session against the shared registry. -/
def sessionStep (m : TunnelManager) (s : CustomSession) :
    TunnelManager × CustomSession :=
  match s with
  | .start u sd pw =>
      if !(is_valid_subdomain sd) then (m, .failed "Invalid subdomain format")
      else if (mapFind sd m.tunnels).isSome then
        (m, .failed "Subdomain already in use")
      else (m, .checked u sd pw)
  | .checked u sd pw =>
      let r := create_tunnel m u sd true pw
      (r.2, .done r.1)
  | s => (m, s)

/-- Interleave two sessions under a schedule (`false` schedules the first
session's next atomic section, `true` the second's). -/
def runSched : List Bool → TunnelManager × CustomSession × CustomSession →
    TunnelManager × CustomSession × CustomSession
  | [], st => st
  | b :: rest, (m, s1, s2) =>
      if b then
        let r := sessionStep m s2
        runSched rest (r.1, s1, r.2)
      else
        let r := sessionStep m s1
        runSched rest (r.1, r.2, s2)

/-- The check-check-insert-insert interleaving of two sessions both
requesting subdomain `demo` on a fresh registry. -/
def raceResult : TunnelManager × CustomSession × CustomSession :=
  runSched [false, true, false, true]
    (TunnelManager.new, CustomSession.start 1 "demo" none,
     CustomSession.start 2 "demo" none)

/-- Tunnel returned to the first racing session. -/
def raceT1 : Tunnel :=
  { id := 0, subdomain := "demo", user_id := 1, is_custom := true,
    created_at := 0, port := 10000, password := none }

/-- Tunnel returned to the second racing session. -/
def raceT2 : Tunnel :=
  { id := 1, subdomain := "demo", user_id := 2, is_custom := true,
    created_at := 1, port := 10001, password := none }

/-! ## nginx.rs : teardown -/

/-- Which teardown targets currently exist on disk (the `Path::exists`
checks of `remove_tunnel_config`, nginx.rs lines 257-275). -/
structure FsState where
  enabled_link : Bool
  config_file : Bool
  html_file : Bool
  passwd_file : Bool
deriving DecidableEq, Repr

/-- Outcome oracle for the external calls of teardown (`none` = success);
`certbot_ok` only controls a log line (nginx.rs lines 305-310). -/
structure TeardownOutcome where
  remove_enabled_err : Option String
  remove_config_err : Option String
  remove_html_err : Option String
  remove_passwd_err : Option String
  certbot_ok : Bool
  nginx_test_err : Option String
  reload_err : Option String
deriving DecidableEq, Repr

/-- The external calls teardown can attempt, in program order. -/
inductive TdStep where
  | removeEnabled
  | removeConfig
  | removeHtml
  | removePasswd
  | deleteCert
  | nginxTest
  | nginxReload
deriving DecidableEq, Repr

/-- `NginxManager::reload_nginx` (nginx.rs lines 337-363): validate the
configuration, then reload; either step failing is returned as an error. -/
def reload_nginx (oc : TeardownOutcome) : Except String Unit × List TdStep :=
  match oc.nginx_test_err with
  | some e => (.error ("Nginx configuration test failed: " ++ e), [.nginxTest])
  | none =>
    match oc.reload_err with
    | some e =>
        (.error ("Failed to reload Nginx: " ++ e), [.nginxTest, .nginxReload])
    | none => (.ok (), [.nginxTest, .nginxReload])

/-- Teardown from the certificate-deletion step on: `delete_ssl_certificate`
failures are swallowed by `.ok()` (nginx.rs line 280), then the proxy is
reloaded and the reload result is returned. -/
def td_from_cert (oc : TeardownOutcome) (tr : List TdStep) :
    Except String Unit × List TdStep :=
  let r := reload_nginx oc
  (r.1, (tr ++ [TdStep.deleteCert]) ++ r.2)

/-- Teardown from the htpasswd-removal step on (nginx.rs lines 274-277). -/
def td_from_passwd (fs : FsState) (oc : TeardownOutcome) (tr : List TdStep) :
    Except String Unit × List TdStep :=
  if fs.passwd_file then
    match oc.remove_passwd_err with
    | some e => (.error e, tr ++ [TdStep.removePasswd])
    | none => td_from_cert oc (tr ++ [TdStep.removePasswd])
  else td_from_cert oc tr

/-- Teardown from the landing-page-removal step on (nginx.rs lines 268-271). -/
def td_from_html (fs : FsState) (oc : TeardownOutcome) (tr : List TdStep) :
    Except String Unit × List TdStep :=
  if fs.html_file then
    match oc.remove_html_err with
    | some e => (.error e, tr ++ [TdStep.removeHtml])
    | none => td_from_passwd fs oc (tr ++ [TdStep.removeHtml])
  else td_from_passwd fs oc tr

/-- Teardown from the config-file-removal step on (nginx.rs lines 262-265). -/
def td_from_config (fs : FsState) (oc : TeardownOutcome) (tr : List TdStep) :
    Except String Unit × List TdStep :=
  if fs.config_file then
    match oc.remove_config_err with
    | some e => (.error e, tr ++ [TdStep.removeConfig])
    | none => td_from_html fs oc (tr ++ [TdStep.removeConfig])
  else td_from_html fs oc tr

/-- `NginxManager::remove_tunnel_config` (nginx.rs lines 252-287): each
file-removal step is guarded by an existence check and propagates its error
with `?`, aborting the remaining steps; certificate-deletion failures are
swallowed; the final reload's error is returned to the caller. -/
def remove_tunnel_config (fs : FsState) (oc : TeardownOutcome) :
    Except String Unit × List TdStep :=
  if fs.enabled_link then
    match oc.remove_enabled_err with
    | some e => (.error e, [TdStep.removeEnabled])
    | none => td_from_config fs oc [TdStep.removeEnabled]
  else td_from_config fs oc []

/-! ## Concrete dispatcher scenarios -/

/-- An oracle where every external call succeeds, `DEV_MODE` is unset and
all randomness is fixed to zero. -/
def envDefault : Env :=
  { dev_mode := none, fresh := 0, ai := 0, ni := 0, rn := 0,
    db_upsert_err := none, db_create_err := none, nginx_create_err := none,
    ssh_invalid_err := none, ssh_store_err := none, ssh_append_err := none }

/-- The same oracle with `DEV_MODE=true` in the environment. -/
def envDev : Env := { envDefault with dev_mode := some "true" }

/-- The same oracle with the nginx bootstrap failing. -/
def envNginxFail : Env :=
  { envDefault with nginx_create_err := some "exit status 1" }

/-- The same oracle with the tunnel-record insert failing. -/
def envDbFail : Env := { envDefault with db_create_err := some "db down" }

/-- A connected session that has not completed auth. -/
def clientUnauthed : Client := { user_id := none, tunnels := [] }

/-- A connected session authenticated as user 5. -/
def clientAuthed : Client := { user_id := some 5, tunnels := [] }

/-- Fresh server state holding one unauthenticated session (id 1). -/
def stUnauthed : AppState :=
  { clients := [(1, clientUnauthed)], tunnel_manager := TunnelManager.new,
    db := { users := [], tunnel_records := [] },
    auth_service := { jwt_secret := "secret" } }

/-- Fresh server state holding one authenticated session (id 1, user 5). -/
def stAuthed : AppState :=
  { clients := [(1, clientAuthed)], tunnel_manager := TunnelManager.new,
    db := { users := [(5, "user@example.com")], tunnel_records := [] },
    auth_service := { jwt_secret := "secret" } }

/-- A forged token: signature valid under no key, expired, wrong audience. -/
def forgedToken : Token :=
  { sub_id := some 7, email := "attacker@example.com", sig_secret := none,
    expired := true, aud := "evil" }

/-- Server state after the nginx-failure rollback: session kept, registry
and persisted record both empty again, port counter advanced. -/
def stRolledBack : AppState :=
  { clients := [(1, clientAuthed)],
    tunnel_manager := { tunnels := [], ports := [], next_port := 10001,
                        fresh_uuid := 1, now := 1 },
    db := { users := [(5, "user@example.com")], tunnel_records := [] },
    auth_service := { jwt_secret := "secret" } }

/-- The event trace of the nginx-failure scenario. -/
def nginxFailTrace : List Event :=
  [Event.registryInsert "happy-cat-1000",
   Event.dbCreateTunnel "happy-cat-1000",
   Event.nginxCreate "happy-cat-1000",
   Event.sendFrame 1 (Frame.error "Nginx configuration failed: exit status 1"),
   Event.registryRemove "happy-cat-1000",
   Event.dbDeleteTunnel "happy-cat-1000"]

/-- The tunnel allocated in the failure scenarios. -/
def tHappy : Tunnel :=
  { id := 0, subdomain := "happy-cat-1000", user_id := 5, is_custom := false,
    created_at := 0, port := 10000, password := none }

deriving instance DecidableEq for Except

/-! ## Theorems -/

@[simp] theorem mapFind_nil {α β : Type} [DecidableEq α] (k : α) :
    mapFind (β := β) k [] = none := rfl

@[simp] theorem mapFind_cons {α β : Type} [DecidableEq α] (k : α)
    (p : α × β) (l : List (α × β)) :
    mapFind k (p :: l) = if p.1 = k then some p.2 else mapFind k l := rfl

@[simp] theorem mapFind_insert_self {α β : Type} [DecidableEq α] (k : α)
    (v : β) (l : List (α × β)) : mapFind k (mapInsert k v l) = some v := by
  simp [mapInsert]

theorem mapFind_filter_ne {α β : Type} [DecidableEq α] (k k' : α)
    (l : List (α × β)) (h : k' ≠ k) :
    mapFind k' (l.filter fun p => decide (p.1 ≠ k)) = mapFind k' l := by
  induction l with
  | nil => rfl
  | cons p l ih =>
    by_cases hp : p.1 = k
    · rw [List.filter_cons_of_neg (by simp [hp]), ih, mapFind_cons,
        if_neg (by rw [hp]; exact fun hh => h hh.symm)]
    · rw [List.filter_cons_of_pos (by simp [hp]), mapFind_cons, mapFind_cons, ih]

theorem mapFind_insert_ne {α β : Type} [DecidableEq α] (k k' : α) (v : β)
    (l : List (α × β)) (h : k' ≠ k) :
    mapFind k' (mapInsert k v l) = mapFind k' l := by
  have hne : ¬ k = k' := fun hh => h hh.symm
  rw [mapInsert, mapFind_cons, if_neg hne]
  exact mapFind_filter_ne k k' l h

theorem mem_mapInsert {α β : Type} [DecidableEq α] {k : α} {v : β}
    {l : List (α × β)} {p : α × β} :
    p ∈ mapInsert k v l ↔ p = (k, v) ∨ (p ∈ l ∧ p.1 ≠ k) := by
  simp [mapInsert, List.mem_filter]

theorem mem_of_mem_mapErase {α β : Type} [DecidableEq α] {k : α}
    {l : List (α × β)} {p : α × β} (h : p ∈ mapErase k l) : p ∈ l := by
  simp [mapErase, List.mem_filter] at h
  exact h.1

/-! ## Claims about the registry operations -/

theorem getD_mem_of_lt {α : Type} (l : List α) (d : α) (i : Nat)
    (h : i < l.length) : l.getD i d ∈ l := by
  induction l generalizing i with
  | nil => simp at h
  | cons a l ih =>
    cases i with
    | zero => simp [List.getD]
    | succ j =>
      simp only [List.getD_cons_succ]
      exact List.mem_cons_of_mem _ (ih j (by simpa using h))

/-- C6: `create_custom_tunnel` fails with `Invalid subdomain format` exactly
when the syntax check fails, fails with `Subdomain already in use` exactly
when the subdomain is valid but already active, and on any error the
registry state is returned unchanged. -/
theorem C6_custom_tunnel_errors (m : TunnelManager) (u : Nat) (s : String)
    (pw : Option String) :
    ((create_custom_tunnel m u s pw).1 = .error "Invalid subdomain format" ↔
      is_valid_subdomain s = false)
    ∧ ((create_custom_tunnel m u s pw).1 = .error "Subdomain already in use" ↔
      is_valid_subdomain s = true ∧ (mapFind s m.tunnels).isSome = true)
    ∧ (∀ e, (create_custom_tunnel m u s pw).1 = .error e →
      (create_custom_tunnel m u s pw).2 = m) := by
  by_cases hv : is_valid_subdomain s = true
  · by_cases ht : (mapFind s m.tunnels).isSome = true
    · refine ⟨?_, ?_, ?_⟩ <;> simp [create_custom_tunnel, hv, ht]
    · refine ⟨?_, ?_, ?_⟩ <;> simp [create_custom_tunnel, hv, ht]
  · have hv' : is_valid_subdomain s = false := by
      cases hq : is_valid_subdomain s
      · rfl
      · exact absurd hq hv
    refine ⟨?_, ?_, ?_⟩ <;> simp [create_custom_tunnel, hv']

/-- Witness for C6 at a concrete input: rejecting the too-short subdomain
`"ab"` leaves the fresh registry unchanged. -/
theorem C6_custom_tunnel_errors_witness :
    (create_custom_tunnel TunnelManager.new 1 "ab" none).2 = TunnelManager.new :=
  (C6_custom_tunnel_errors TunnelManager.new 1 "ab" none).2.2
    "Invalid subdomain format" (by rfl)

/-- C9 (amended): every generated subdomain has the shape
`adjective-noun-NNNN` with the adjective and noun drawn from the fixed
vocabularies, and the set of attainable numeric suffixes is exactly the
interval `[1000, 9998]` (the source samples `gen_range(1000..9999)`, a
half-open range). -/
theorem C9_subdomain_format :
    (∀ ai ni rn, ∃ a ∈ adjectives, ∃ b ∈ nouns,
        generate_random_subdomain ai ni rn
          = a ++ "-" ++ b ++ "-" ++ Nat.repr (gen_range_1000_9999 rn)
        ∧ 1000 ≤ gen_range_1000_9999 rn ∧ gen_range_1000_9999 rn ≤ 9998)
    ∧ (∀ n, 1000 ≤ n → n ≤ 9998 → ∃ rn, gen_range_1000_9999 rn = n) := by
  constructor
  · intro ai ni rn
    refine ⟨adjectives.getD (ai % adjectives.length) "",
      getD_mem_of_lt _ _ _ (Nat.mod_lt _ (by decide)),
      nouns.getD (ni % nouns.length) "",
      getD_mem_of_lt _ _ _ (Nat.mod_lt _ (by decide)), rfl, ?_, ?_⟩
    · exact Nat.le_add_right _ _
    · have := Nat.mod_lt rn (show 0 < 8999 by decide)
      unfold gen_range_1000_9999
      omega
  · intro n h1 h2
    refine ⟨n - 1000, ?_⟩
    unfold gen_range_1000_9999
    omega

/-- Witness for C9 at a concrete input: suffix 9998 is attainable. -/
theorem C9_subdomain_format_witness : ∃ rn, gen_range_1000_9999 rn = 9998 :=
  C9_subdomain_format.2 9998 (by decide) (by decide)

/-- C9 counterexample: the claim includes 9999 among the possible suffixes,
but `gen_range(1000..9999)` is half-open, so no oracle value produces 9999. -/
theorem C9_counterexample : ¬ ∃ rn, gen_range_1000_9999 rn = 9999 := by
  rintro ⟨rn, h⟩
  have := Nat.mod_lt rn (show 0 < 8999 by decide)
  unfold gen_range_1000_9999 at h
  omega

/-- C10: when the generated subdomain collides with an active tunnel, the
insert silently replaces the subdomain-map entry (the displaced tunnel is
gone, no teardown happened), while the displaced tunnel's port→id binding
stays behind in the port map; the allocation itself returns the new tunnel
(the Rust function has no failure or retry path). -/
theorem C10_collision_overwrite (m : TunnelManager) (u : Nat)
    (pw : Option String) (ai ni rn : Nat) (t_old : Tunnel) (s : String)
    (hs : s = generate_random_subdomain ai ni rn)
    (hfound : mapFind s m.tunnels = some t_old)
    (hport : t_old.port ≠ m.next_port) :
    mapFind s (create_random_tunnel m u pw ai ni rn).2.tunnels
        = some (create_random_tunnel m u pw ai ni rn).1
    ∧ mapFind s (create_random_tunnel m u pw ai ni rn).2.tunnels ≠ some t_old
    ∧ (create_random_tunnel m u pw ai ni rn).1.port = m.next_port
    ∧ mapFind t_old.port (create_random_tunnel m u pw ai ni rn).2.ports
        = mapFind t_old.port m.ports := by
  subst hs
  refine ⟨mapFind_insert_self _ _ _, ?_, rfl, ?_⟩
  · intro h
    have h1 : mapFind (generate_random_subdomain ai ni rn)
        (create_random_tunnel m u pw ai ni rn).2.tunnels
        = some (create_random_tunnel m u pw ai ni rn).1 :=
      mapFind_insert_self _ _ _
    rw [h1] at h
    have h2 := Option.some.inj h
    apply hport
    rw [← h2]
    rfl
  · exact mapFind_insert_ne _ _ _ _ hport

/-- Witness for C10 at a concrete input. -/
theorem C10_collision_overwrite_witness :
    mapFind "happy-cat-1000"
        (create_random_tunnel collideManager 7 none 0 0 0).2.tunnels
        = some (create_random_tunnel collideManager 7 none 0 0 0).1
    ∧ mapFind "happy-cat-1000"
        (create_random_tunnel collideManager 7 none 0 0 0).2.tunnels
        ≠ some collideTunnel
    ∧ (create_random_tunnel collideManager 7 none 0 0 0).1.port
        = collideManager.next_port
    ∧ mapFind collideTunnel.port
        (create_random_tunnel collideManager 7 none 0 0 0).2.ports
        = mapFind collideTunnel.port collideManager.ports :=
  C10_collision_overwrite collideManager 7 none 0 0 0 collideTunnel
    "happy-cat-1000" (by decide) (by decide) (by decide)

/-! ## The port-uniqueness invariant -/

/-- `create_tunnel`, component-wise: the subdomain map gains the allocated
record under its subdomain. -/
theorem create_tunnel_tunnels (m : TunnelManager) (u : Nat) (s : String)
    (c : Bool) (pw : Option String) :
    (create_tunnel m u s c pw).2.tunnels
      = mapInsert s (create_tunnel m u s c pw).1 m.tunnels := rfl

/-- `create_tunnel`: the port map gains the allocated port. -/
theorem create_tunnel_ports (m : TunnelManager) (u : Nat) (s : String)
    (c : Bool) (pw : Option String) :
    (create_tunnel m u s c pw).2.ports
      = mapInsert m.next_port m.fresh_uuid m.ports := rfl

/-- `create_tunnel`: the counter advances by one, wrapping as a `u16`. -/
theorem create_tunnel_next_port (m : TunnelManager) (u : Nat) (s : String)
    (c : Bool) (pw : Option String) :
    (create_tunnel m u s c pw).2.next_port = (m.next_port + 1) % 65536 := rfl

/-- `create_tunnel`: the allocated record carries the pre-increment counter. -/
theorem create_tunnel_port (m : TunnelManager) (u : Nat) (s : String)
    (c : Bool) (pw : Option String) :
    (create_tunnel m u s c pw).1.port = m.next_port := rfl

/-- `create_tunnel`: the allocated record carries the requested subdomain. -/
theorem create_tunnel_subdomain (m : TunnelManager) (u : Nat) (s : String)
    (c : Bool) (pw : Option String) :
    (create_tunnel m u s c pw).1.subdomain = s := rfl

/-- Ports handed out by two different allocation counts below the wrap bound
are different. -/
theorem port_mod_ne (i n : Nat) (hi : i < n) (hn : n < 65536) :
    (10000 + i) % 65536 ≠ (10000 + n) % 65536 := by omega

theorem mapFind_some_mem {α β : Type} [DecidableEq α] {k : α} {v : β} :
    ∀ {l : List (α × β)}, mapFind k l = some v → (k, v) ∈ l := by
  intro l
  induction l with
  | nil => intro h; simp at h
  | cons p l ih =>
    intro h
    obtain ⟨p1, p2⟩ := p
    rw [mapFind_cons] at h
    by_cases hp : p1 = k
    · rw [if_pos hp] at h
      injection h with h2
      subst h2
      subst hp
      exact List.mem_cons_self _ _
    · rw [if_neg hp] at h
      exact List.mem_cons_of_mem _ (ih h)

/-- Allocating preserves the invariant, bumping the allocation count. -/
theorem create_tunnel_inv {m : TunnelManager} {n : Nat}
    (hm : ManagerInv m n) (hn : n < 65536) (u : Nat) (s : String) (c : Bool)
    (pw : Option String) : ManagerInv (create_tunnel m u s c pw).2 (n + 1) := by
  obtain ⟨h1, h2, h3, h4, h5⟩ := hm
  refine ⟨?_, ?_, ?_, ?_, ?_⟩
  · rw [create_tunnel_next_port, h1]; omega
  · intro p hp
    rw [create_tunnel_tunnels] at hp
    rcases mem_mapInsert.mp hp with h | ⟨h, -⟩
    · refine ⟨n, Nat.lt_succ_self n, ?_⟩
      rw [h]
      show (create_tunnel m u s c pw).1.port = (10000 + n) % 65536
      rw [create_tunnel_port, h1]
    · obtain ⟨i, hi, hip⟩ := h2 p h
      exact ⟨i, Nat.lt_succ_of_lt hi, hip⟩
  · rw [create_tunnel_tunnels]
    simp only [mapInsert]
    refine List.pairwise_cons.mpr ⟨?_, List.Pairwise.filter _ h3⟩
    intro q hq
    obtain ⟨i, hi, hip⟩ := h2 q (List.mem_filter.mp hq).1
    show (create_tunnel m u s c pw).1.port ≠ q.2.port
    rw [create_tunnel_port, h1, hip]
    exact (port_mod_ne i n hi hn).symm
  · intro p hp
    rw [create_tunnel_tunnels] at hp
    rcases mem_mapInsert.mp hp with h | ⟨h, -⟩
    · rw [h]
      show (create_tunnel m u s c pw).1.subdomain = s
      rw [create_tunnel_subdomain]
    · exact h4 p h
  · rw [create_tunnel_tunnels]
    simp only [mapInsert]
    refine List.pairwise_cons.mpr ⟨?_, List.Pairwise.filter _ h5⟩
    intro q hq
    have hne := (List.mem_filter.mp hq).2
    simp only [decide_eq_true_eq] at hne
    exact fun hh => hne hh.symm

/-- `remove_tunnel` on an absent subdomain leaves the state unchanged. -/
theorem remove_tunnel_state_none (m : TunnelManager) (s : String)
    (hf : mapFind s m.tunnels = none) : (remove_tunnel m s).2 = m := by
  simp only [remove_tunnel, hf]

/-- `remove_tunnel` on a present subdomain erases both map entries. -/
theorem remove_tunnel_state_some (m : TunnelManager) (s : String) (t : Tunnel)
    (hf : mapFind s m.tunnels = some t) :
    (remove_tunnel m s).2 = { m with tunnels := mapErase s m.tunnels,
                                     ports := mapErase t.port m.ports } := by
  simp only [remove_tunnel, hf]

/-- `create_custom_tunnel` on a valid, unused subdomain delegates to
`create_tunnel`. -/
theorem create_custom_tunnel_success (m : TunnelManager) (u : Nat) (s : String)
    (pw : Option String) (hv : is_valid_subdomain s = true)
    (hf : mapFind s m.tunnels = none) :
    create_custom_tunnel m u s pw
      = (.ok (create_tunnel m u s true pw).1, (create_tunnel m u s true pw).2) := by
  unfold create_custom_tunnel
  rw [hv, hf]
  rfl

/-- `create_custom_tunnel` either rejects (state unchanged) or delegates to
`create_tunnel`. -/
theorem create_custom_tunnel_state (m : TunnelManager) (u : Nat) (s : String)
    (pw : Option String) :
    (create_custom_tunnel m u s pw).2 = m
    ∨ (create_custom_tunnel m u s pw).2 = (create_tunnel m u s true pw).2 := by
  by_cases hv : is_valid_subdomain s = true
  · by_cases ht : (mapFind s m.tunnels).isSome = true
    · left; simp [create_custom_tunnel, hv, ht]
    · right; simp [create_custom_tunnel, hv, ht]
  · left
    have hv' : is_valid_subdomain s = false := by
      cases hq : is_valid_subdomain s
      · rfl
      · exact absurd hq hv
    simp [create_custom_tunnel, hv']

/-- Removal preserves the invariant at the same allocation count. -/
theorem remove_tunnel_inv {m : TunnelManager} {n : Nat}
    (hm : ManagerInv m n) (s : String) :
    ManagerInv (remove_tunnel m s).2 n := by
  obtain ⟨h1, h2, h3, h4, h5⟩ := hm
  cases hf : mapFind s m.tunnels with
  | none => rw [remove_tunnel_state_none m s hf]; exact ⟨h1, h2, h3, h4, h5⟩
  | some t =>
    rw [remove_tunnel_state_some m s t hf]
    refine ⟨h1, ?_, List.Pairwise.filter _ h3, ?_, List.Pairwise.filter _ h5⟩
    · exact fun p hp => h2 p (mem_of_mem_mapErase hp)
    · exact fun p hp => h4 p (mem_of_mem_mapErase hp)

/-- Every registry operation preserves the invariant, with the allocation
count growing by at most one. -/
theorem regStep_inv {m : TunnelManager} {n : Nat} (hm : ManagerInv m n)
    (hn : n < 65536) (op : RegOp) :
    ManagerInv (regStep m op) n ∨ ManagerInv (regStep m op) (n + 1) := by
  cases op with
  | allocRandom u pw ai ni rn =>
    exact Or.inr (create_tunnel_inv hm hn u _ false pw)
  | allocCustom u s pw =>
    show ManagerInv (create_custom_tunnel m u s pw).2 n
      ∨ ManagerInv (create_custom_tunnel m u s pw).2 (n + 1)
    rcases create_custom_tunnel_state m u s pw with h | h
    · rw [h]; exact Or.inl hm
    · rw [h]; exact Or.inr (create_tunnel_inv hm hn u s true pw)
  | remove s => exact Or.inl (remove_tunnel_inv hm s)

/-- The fresh registry satisfies the invariant with no allocations yet. -/
theorem managerInv_new : ManagerInv TunnelManager.new 0 := by
  refine ⟨by decide, ?_, ?_, ?_, ?_⟩ <;> simp [TunnelManager.new]

/-- Running at most `65536 - n` further operations keeps the invariant. -/
theorem regRun_inv : ∀ (ops : List RegOp) (m : TunnelManager) (n : Nat),
    ManagerInv m n → n + ops.length ≤ 65536 →
    ∃ k, k ≤ n + ops.length ∧ ManagerInv (regRun m ops) k := by
  intro ops
  induction ops with
  | nil => exact fun m n h _ => ⟨n, Nat.le_add_right n 0, h⟩
  | cons op ops ih =>
    intro m n h hle
    have hlen : (op :: ops).length = ops.length + 1 := rfl
    have hn : n < 65536 := by rw [hlen] at hle; omega
    rcases regStep_inv h hn op with h' | h'
    · obtain ⟨k, hk, hinv⟩ := ih _ n h' (by rw [hlen] at hle; omega)
      exact ⟨k, by rw [hlen]; omega, hinv⟩
    · obtain ⟨k, hk, hinv⟩ := ih _ (n + 1) h' (by rw [hlen] at hle; omega)
      exact ⟨k, by rw [hlen]; omega, hinv⟩

/-- C1 (amended): along any operation sequence of at most 65536 registry
operations from a fresh registry, active tunnels always have pairwise
distinct subdomains and pairwise distinct ports. -/
theorem C1_distinct_active (ops : List RegOp) (h : ops.length ≤ 65536) :
    DistinctActive (regRun TunnelManager.new ops) := by
  obtain ⟨k, -, -, -, h3, h4, h5⟩ :=
    regRun_inv ops TunnelManager.new 0 managerInv_new (by omega)
  refine ⟨?_, h3⟩
  refine List.Pairwise.imp_of_mem ?_ h5
  intro a b ha hb hne
  rw [h4 a ha, h4 b hb]
  exact hne

/-- Witness for C1 at a concrete input: allocate, allocate, remove. -/
theorem C1_distinct_active_witness :
    DistinctActive (regRun TunnelManager.new
      [RegOp.allocCustom 3 "abc" none, RegOp.allocRandom 4 none 1 2 3,
       RegOp.remove "abc"]) :=
  C1_distinct_active _ (by decide)

/-! ## Wrap-around of the u16 port counter -/

theorem gen_zero : generate_random_subdomain 0 0 0 = "happy-cat-1000" := by
  decide

theorem regStep_allocRandom (m : TunnelManager) (u : Nat) (pw : Option String)
    (ai ni rn : Nat) :
    regStep m (RegOp.allocRandom u pw ai ni rn)
      = (create_random_tunnel m u pw ai ni rn).2 := rfl

theorem regStep_allocCustom (m : TunnelManager) (u : Nat) (s : String)
    (pw : Option String) :
    regStep m (RegOp.allocCustom u s pw) = (create_custom_tunnel m u s pw).2 := rfl

theorem regStep_remove (m : TunnelManager) (s : String) :
    regStep m (RegOp.remove s) = (remove_tunnel m s).2 := rfl

@[simp] theorem regRun_nil (m : TunnelManager) : regRun m [] = m := rfl

@[simp] theorem regRun_cons (m : TunnelManager) (op : RegOp) (ops : List RegOp) :
    regRun m (op :: ops) = regRun (regStep m op) ops := rfl

@[simp] theorem regTrace_nil (m : TunnelManager) : regTrace m [] = [] := rfl

@[simp] theorem regTrace_cons (m : TunnelManager) (op : RegOp)
    (ops : List RegOp) :
    regTrace m (op :: ops)
      = regStepEvents m op ++ regTrace (regStep m op) ops := rfl

/-- Running a concatenation is running the parts in sequence. -/
theorem regRun_append (l1 : List RegOp) : ∀ (m : TunnelManager) (l2 : List RegOp),
    regRun m (l1 ++ l2) = regRun (regRun m l1) l2 := by
  induction l1 with
  | nil => intro m l2; rfl
  | cons op l1 ih => intro m l2; exact ih (regStep m op) l2

/-- One `randOp` step: the counter advances (wrapping). -/
theorem randStep_next_port (m : TunnelManager) :
    (regStep m randOp).next_port = (m.next_port + 1) % 65536 := rfl

/-- One `randOp` step inserts under the key `happy-cat-1000`. -/
theorem randStep_tunnels (m : TunnelManager) :
    (regStep m randOp).tunnels
      = mapInsert "happy-cat-1000"
          (create_tunnel m 0 "happy-cat-1000" false none).1 m.tunnels := by
  show (create_random_tunnel m 0 none 0 0 0).2.tunnels = _
  rw [create_random_tunnel, gen_zero, create_tunnel_tunnels]

/-- Counter value after `k` random allocations. -/
theorem regRun_replicate_next_port (k : Nat) :
    ∀ (m : TunnelManager), m.next_port < 65536 →
    (regRun m (List.replicate k randOp)).next_port
      = (m.next_port + k) % 65536 := by
  induction k with
  | zero => intro m h; exact (Nat.mod_eq_of_lt h).symm
  | succ k ih =>
    intro m h
    rw [List.replicate_succ]
    show (regRun (regStep m randOp) (List.replicate k randOp)).next_port = _
    rw [ih _ (by rw [randStep_next_port]; exact Nat.mod_lt _ (by decide)),
      randStep_next_port]
    omega

/-- Entries under other keys survive `k` random allocations. -/
theorem regRun_replicate_mem (k : Nat) :
    ∀ (m : TunnelManager) (p : String × Tunnel), p ∈ m.tunnels →
    p.1 ≠ "happy-cat-1000" →
    p ∈ (regRun m (List.replicate k randOp)).tunnels := by
  induction k with
  | zero => intro m p hp _; exact hp
  | succ k ih =>
    intro m p hp hk
    rw [List.replicate_succ]
    show p ∈ (regRun (regStep m randOp) (List.replicate k randOp)).tunnels
    refine ih _ p ?_ hk
    rw [randStep_tunnels]
    exact mem_mapInsert.mpr (Or.inr ⟨hp, hk⟩)

/-- Lookups of other keys are unchanged by `k` random allocations. -/
theorem regRun_replicate_find (k : Nat) :
    ∀ (m : TunnelManager) (key : String), key ≠ "happy-cat-1000" →
    mapFind key (regRun m (List.replicate k randOp)).tunnels
      = mapFind key m.tunnels := by
  induction k with
  | zero => intro m key _; rfl
  | succ k ih =>
    intro m key hk
    rw [List.replicate_succ]
    show mapFind key (regRun (regStep m randOp) (List.replicate k randOp)).tunnels = _
    rw [ih _ key hk, randStep_tunnels, mapFind_insert_ne _ _ _ _ hk]

/-- If some active tunnel under another key already holds the current counter
value, allocating breaks port distinctness. -/
theorem create_tunnel_port_clash (m : TunnelManager) (u : Nat) (s : String)
    (c : Bool) (pw : Option String) (k₀ : String) (t₀ : Tunnel)
    (hmem : (k₀, t₀) ∈ m.tunnels) (hk : k₀ ≠ s)
    (hp : t₀.port = m.next_port) :
    ¬ ((create_tunnel m u s c pw).2.tunnels.Pairwise
        (fun a b => a.2.port ≠ b.2.port)) := by
  intro hP
  rw [create_tunnel_tunnels] at hP
  simp only [mapInsert] at hP
  have h1 := (List.pairwise_cons.mp hP).1 (k₀, t₀)
    (List.mem_filter.mpr ⟨hmem, by simpa using hk⟩)
  refine h1 ?_
  show (create_tunnel m u s c pw).1.port = t₀.port
  rw [create_tunnel_port, hp]

/-- C1 counterexample: after 65537 allocations the wrapped `u16` counter
hands out port 10000 a second time while tunnel `"aaa"` still holds it, so
two active tunnels share a port. -/
theorem C1_counterexample :
    ¬ DistinctActive (regRun TunnelManager.new wrapOps) := by
  intro hD
  have hstep1 : regStep TunnelManager.new (RegOp.allocCustom 0 "aaa" none) = mA := by
    decide
  have hrun : regRun TunnelManager.new wrapOps
      = regRun (regRun mA (List.replicate 65535 randOp))
          [RegOp.allocCustom 0 "ccc" none] := by
    rw [show wrapOps = RegOp.allocCustom 0 "aaa" none
          :: (List.replicate 65535 randOp ++ [RegOp.allocCustom 0 "ccc" none])
        from rfl,
      regRun_cons, hstep1, regRun_append]
  have hnp : (regRun mA (List.replicate 65535 randOp)).next_port = 10000 := by
    rw [regRun_replicate_next_port 65535 mA (by decide)]
    decide
  have hmemA : ("aaa", tA) ∈ (regRun mA (List.replicate 65535 randOp)).tunnels :=
    regRun_replicate_mem 65535 mA ("aaa", tA) (by decide) (by decide)
  have hfind : mapFind "ccc" (regRun mA (List.replicate 65535 randOp)).tunnels
      = none := by
    rw [regRun_replicate_find 65535 mA "ccc" (by decide)]
    decide
  have hfinal : regRun TunnelManager.new wrapOps
      = (create_tunnel (regRun mA (List.replicate 65535 randOp)) 0 "ccc"
          true none).2 := by
    rw [hrun, regRun_cons, regRun_nil, regStep_allocCustom,
      create_custom_tunnel_success _ _ _ _ (by decide) hfind]
  have hP := hD.2
  rw [hfinal] at hP
  exact create_tunnel_port_clash _ 0 "ccc" true none "aaa" tA hmemA
    (by decide) (by rw [hnp]; decide) hP

/-! ## Port monotonicity and (non-)reuse -/

theorem create_custom_tunnel_invalid (m : TunnelManager) (u : Nat) (s : String)
    (pw : Option String) (hv : is_valid_subdomain s = false) :
    create_custom_tunnel m u s pw = (.error "Invalid subdomain format", m) := by
  unfold create_custom_tunnel
  rw [hv]
  rfl

theorem create_custom_tunnel_taken (m : TunnelManager) (u : Nat) (s : String)
    (pw : Option String) (hv : is_valid_subdomain s = true)
    (ht : (mapFind s m.tunnels).isSome = true) :
    create_custom_tunnel m u s pw = (.error "Subdomain already in use", m) := by
  unfold create_custom_tunnel
  rw [hv, ht]
  rfl

theorem regStepEvents_allocRandom (m : TunnelManager) (u : Nat)
    (pw : Option String) (ai ni rn : Nat) :
    regStepEvents m (RegOp.allocRandom u pw ai ni rn)
      = [PortEvent.alloc m.next_port] := rfl

theorem regStepEvents_custom_invalid (m : TunnelManager) (u : Nat) (s : String)
    (pw : Option String) (hv : is_valid_subdomain s = false) :
    regStepEvents m (RegOp.allocCustom u s pw) = [] := by
  simp only [regStepEvents]
  rw [hv]
  rfl

theorem regStepEvents_custom_taken (m : TunnelManager) (u : Nat) (s : String)
    (pw : Option String) (hv : is_valid_subdomain s = true)
    (ht : (mapFind s m.tunnels).isSome = true) :
    regStepEvents m (RegOp.allocCustom u s pw) = [] := by
  simp only [regStepEvents]
  rw [hv, ht]
  rfl

theorem regStepEvents_custom_success (m : TunnelManager) (u : Nat) (s : String)
    (pw : Option String) (hv : is_valid_subdomain s = true)
    (hf : mapFind s m.tunnels = none) :
    regStepEvents m (RegOp.allocCustom u s pw)
      = [PortEvent.alloc m.next_port] := by
  simp only [regStepEvents]
  rw [hv, hf]
  rfl

theorem regStepEvents_remove_some (m : TunnelManager) (s : String) (t : Tunnel)
    (hf : mapFind s m.tunnels = some t) :
    regStepEvents m (RegOp.remove s) = [PortEvent.free t.port] := by
  simp only [regStepEvents]
  rw [hf]

theorem regStepEvents_remove_none (m : TunnelManager) (s : String)
    (hf : mapFind s m.tunnels = none) :
    regStepEvents m (RegOp.remove s) = [] := by
  simp only [regStepEvents]
  rw [hf]

/-- Consecutive random allocations from any state below the wrap bound
receive the consecutive counter values. -/
theorem regTrace_allocs : ∀ (ops : List RegOp) (m : TunnelManager),
    (∀ op ∈ ops, isRandAlloc op) → m.next_port + ops.length ≤ 65536 →
    regTrace m ops
      = (List.range ops.length).map
          (fun i => PortEvent.alloc (m.next_port + i)) := by
  intro ops
  induction ops with
  | nil => intro m _ _; rfl
  | cons op ops ih =>
    intro m hops h
    obtain ⟨u, pw, ai, ni, rn, hop⟩ := hops op (List.mem_cons_self _ _)
    subst hop
    rw [regTrace_cons, regStepEvents_allocRandom]
    simp only [List.length_cons] at h ⊢
    cases ops with
    | nil =>
      rw [regTrace_nil]
      rfl
    | cons op2 ops2 =>
      have hlt : m.next_port + 1 < 65536 := by
        simp only [List.length_cons] at h
        omega
      have hmod : (regStep m (RegOp.allocRandom u pw ai ni rn)).next_port
          = m.next_port + 1 := by
        rw [regStep_allocRandom, create_random_tunnel, create_tunnel_next_port,
          Nat.mod_eq_of_lt hlt]
      have ih2 := ih (regStep m (RegOp.allocRandom u pw ai ni rn))
        (fun o ho => hops o (List.mem_cons_of_mem _ ho))
        (by rw [hmod]; simp only [List.length_cons] at h ⊢; omega)
      rw [ih2, hmod, List.range_succ_eq_map, List.map_cons, List.map_map]
      have hf : ((fun i => PortEvent.alloc (m.next_port + i)) ∘ Nat.succ)
          = fun i => PortEvent.alloc (m.next_port + 1 + i) := by
        funext i
        show PortEvent.alloc (m.next_port + (i + 1)) = _
        congr 1
        omega
      rw [hf]
      congr 1

/-- Every allocation in a run out of an invariant state draws its port from
the counter window of that run. -/
theorem regTrace_alloc_mem : ∀ (ops : List RegOp) (m : TunnelManager) (n : Nat),
    ManagerInv m n → n + ops.length ≤ 65536 →
    ∀ p, PortEvent.alloc p ∈ regTrace m ops →
      ∃ i, n ≤ i ∧ i < n + ops.length ∧ p = (10000 + i) % 65536 := by
  intro ops
  induction ops with
  | nil => intro m n _ _ p hp; rw [regTrace_nil] at hp; cases hp
  | cons op ops ih =>
    intro m n hinv hlen p hp
    rw [regTrace_cons] at hp
    have hn : n < 65536 := by simp only [List.length_cons] at hlen; omega
    rcases List.mem_append.mp hp with hh | hh
    · have hpe : p = m.next_port := by
        cases op with
        | allocRandom u pw ai ni rn =>
          rw [regStepEvents_allocRandom] at hh
          simp at hh
          exact hh
        | allocCustom u s pw =>
          by_cases hv : is_valid_subdomain s = true
          · cases hf : mapFind s m.tunnels with
            | some t =>
              rw [regStepEvents_custom_taken m u s pw hv (by rw [hf]; rfl)] at hh
              cases hh
            | none =>
              rw [regStepEvents_custom_success m u s pw hv hf] at hh
              simp at hh
              exact hh
          · have hv' : is_valid_subdomain s = false := by
              cases hq : is_valid_subdomain s
              · rfl
              · exact absurd hq hv
            rw [regStepEvents_custom_invalid m u s pw hv'] at hh
            cases hh
        | remove s =>
          cases hf : mapFind s m.tunnels with
          | some t =>
            rw [regStepEvents_remove_some m s t hf] at hh
            simp at hh
          | none =>
            rw [regStepEvents_remove_none m s hf] at hh
            cases hh
      refine ⟨n, le_refl n, by simp only [List.length_cons]; omega, ?_⟩
      rw [hpe, hinv.1]
    · rcases regStep_inv hinv hn op with h' | h'
      · obtain ⟨i, h1, h2, h3⟩ := ih _ n h'
          (by simp only [List.length_cons] at hlen ⊢; omega) p hh
        exact ⟨i, h1, by simp only [List.length_cons]; omega, h3⟩
      · obtain ⟨i, h1, h2, h3⟩ := ih _ (n + 1) h'
          (by simp only [List.length_cons] at hlen ⊢; omega) p hh
        exact ⟨i, by omega, by simp only [List.length_cons]; omega, h3⟩

/-- Within one counter window (no full wrap), an allocation never hands out
a port that was freed earlier in the run. -/
theorem regTrace_no_realloc : ∀ (ops : List RegOp) (m : TunnelManager) (n : Nat),
    ManagerInv m n → n + ops.length ≤ 65536 →
    ∀ i j p, i < j → (regTrace m ops).get? i = some (.free p) →
      (regTrace m ops).get? j ≠ some (.alloc p) := by
  intro ops
  induction ops with
  | nil =>
    intro m n _ _ i j p _ hfree
    rw [regTrace_nil] at hfree
    simp at hfree
  | cons op ops ih =>
    intro m n hinv hlen i j p hij hfree halloc
    rw [regTrace_cons] at hfree halloc
    have hn : n < 65536 := by simp only [List.length_cons] at hlen; omega
    have hlen1 : n + 1 + ops.length ≤ 65536 := by
      simp only [List.length_cons] at hlen; omega
    have hlen0 : n + ops.length ≤ 65536 := by omega
    cases op with
    | allocRandom u pw ai ni rn =>
      rw [regStepEvents_allocRandom, List.singleton_append] at hfree halloc
      have hinv' : ManagerInv (regStep m (RegOp.allocRandom u pw ai ni rn))
          (n + 1) := by
        rw [regStep_allocRandom, create_random_tunnel]
        exact create_tunnel_inv hinv hn u _ false pw
      cases i with
      | zero => rw [List.get?_cons_zero] at hfree; simp at hfree
      | succ i' =>
        cases j with
        | zero => omega
        | succ j' =>
          rw [List.get?_cons_succ] at hfree halloc
          exact ih _ (n + 1) hinv' hlen1 i' j' p (by omega) hfree halloc
    | allocCustom u s pw =>
      by_cases hv : is_valid_subdomain s = true
      · cases hf : mapFind s m.tunnels with
        | some t =>
          rw [regStepEvents_custom_taken m u s pw hv (by rw [hf]; rfl),
            List.nil_append] at hfree halloc
          have hst : regStep m (RegOp.allocCustom u s pw) = m := by
            rw [regStep_allocCustom,
              create_custom_tunnel_taken m u s pw hv (by rw [hf]; rfl)]
          rw [hst] at hfree halloc
          exact ih _ n hinv hlen0 i j p hij hfree halloc
        | none =>
          rw [regStepEvents_custom_success m u s pw hv hf,
            List.singleton_append] at hfree halloc
          have hinv' : ManagerInv (regStep m (RegOp.allocCustom u s pw))
              (n + 1) := by
            rw [regStep_allocCustom, create_custom_tunnel_success m u s pw hv hf]
            exact create_tunnel_inv hinv hn u s true pw
          cases i with
          | zero => rw [List.get?_cons_zero] at hfree; simp at hfree
          | succ i' =>
            cases j with
            | zero => omega
            | succ j' =>
              rw [List.get?_cons_succ] at hfree halloc
              exact ih _ (n + 1) hinv' hlen1 i' j' p (by omega) hfree halloc
      · have hv' : is_valid_subdomain s = false := by
          cases hq : is_valid_subdomain s
          · rfl
          · exact absurd hq hv
        rw [regStepEvents_custom_invalid m u s pw hv', List.nil_append]
          at hfree halloc
        have hst : regStep m (RegOp.allocCustom u s pw) = m := by
          rw [regStep_allocCustom, create_custom_tunnel_invalid m u s pw hv']
        rw [hst] at hfree halloc
        exact ih _ n hinv hlen0 i j p hij hfree halloc
    | remove s =>
      cases hf : mapFind s m.tunnels with
      | none =>
        rw [regStepEvents_remove_none m s hf, List.nil_append] at hfree halloc
        have hst : regStep m (RegOp.remove s) = m := by
          rw [regStep_remove, remove_tunnel_state_none m s hf]
        rw [hst] at hfree halloc
        exact ih _ n hinv hlen0 i j p hij hfree halloc
      | some t =>
        rw [regStepEvents_remove_some m s t hf, List.singleton_append]
          at hfree halloc
        have hinv' : ManagerInv (regStep m (RegOp.remove s)) n := by
          rw [regStep_remove]
          exact remove_tunnel_inv hinv s
        cases i with
        | zero =>
          rw [List.get?_cons_zero] at hfree
          injection Option.some.inj hfree with hp
          cases j with
          | zero => omega
          | succ j' =>
            rw [List.get?_cons_succ] at halloc
            have hmem : PortEvent.alloc p
                ∈ regTrace (regStep m (RegOp.remove s)) ops :=
              List.get?_mem halloc
            obtain ⟨i', hi1, hi2, hi3⟩ :=
              regTrace_alloc_mem ops _ n hinv' hlen0 p hmem
            obtain ⟨i₀, hi₀, hp₀⟩ := hinv.2.1 (s, t) (mapFind_some_mem hf)
            have hclash : (10000 + i₀) % 65536 = (10000 + i') % 65536 := by
              rw [← hp₀]
              show t.port = _
              rw [hp, hi3]
            exact port_mod_ne i₀ i' (by omega) (by omega) hclash
        | succ i' =>
          cases j with
          | zero => omega
          | succ j' =>
            rw [List.get?_cons_succ] at hfree halloc
            exact ih _ n hinv' hlen0 i' j' p (by omega) hfree halloc

/-- C8 (amended): random allocations from a fresh registry receive ports
10000, 10001, … in order; removal never touches the counter; an allocation
always receives the current counter value; and within the first 65536
operations (before the `u16` counter can wrap) a freed port is never handed
out again. -/
theorem C8_port_monotonic :
    (∀ ops : List RegOp, (∀ op ∈ ops, isRandAlloc op) → ops.length ≤ 55536 →
      regTrace TunnelManager.new ops
        = (List.range ops.length).map (fun i => PortEvent.alloc (10000 + i)))
    ∧ (∀ (m : TunnelManager) (s : String),
        (regStep m (RegOp.remove s)).next_port = m.next_port)
    ∧ (∀ (m : TunnelManager) (u : Nat) (pw : Option String) (ai ni rn : Nat),
        (create_random_tunnel m u pw ai ni rn).1.port = m.next_port)
    ∧ (∀ ops : List RegOp, ops.length ≤ 65536 →
        NoRealloc (regTrace TunnelManager.new ops)) := by
  refine ⟨?_, ?_, ?_, ?_⟩
  · intro ops hops hlen
    exact regTrace_allocs ops TunnelManager.new hops
      (by show 10000 + ops.length ≤ 65536; omega)
  · intro m s
    cases hf : mapFind s m.tunnels with
    | some t => rw [regStep_remove, remove_tunnel_state_some m s t hf]
    | none => rw [regStep_remove, remove_tunnel_state_none m s hf]
  · intro m u pw ai ni rn
    rfl
  · intro ops hlen i j p hij hfree halloc
    exact regTrace_no_realloc ops TunnelManager.new 0 managerInv_new
      (by omega) i j p hij hfree halloc

/-- Witness for C8 at a concrete input: two random allocations from a fresh
registry receive ports 10000 and 10001. -/
theorem C8_port_monotonic_witness :
    regTrace TunnelManager.new [randOp, randOp]
      = (List.range (List.length [randOp, randOp])).map
          (fun i => PortEvent.alloc (10000 + i)) :=
  C8_port_monotonic.1 [randOp, randOp]
    (by
      intro op hop
      rcases List.mem_cons.mp hop with h | h2
      · exact ⟨0, none, 0, 0, 0, h⟩
      · rcases List.mem_cons.mp h2 with h | h
        · exact ⟨0, none, 0, 0, 0, h⟩
        · cases h)
    (by decide)

/-- Trace of `k` fixed-oracle random allocations, with the counter wrapping. -/
theorem regTrace_replicate_rand (k : Nat) :
    ∀ (m : TunnelManager), m.next_port < 65536 →
    regTrace m (List.replicate k randOp)
      = (List.range k).map
          (fun i => PortEvent.alloc ((m.next_port + i) % 65536)) := by
  induction k with
  | zero => intro m _; rfl
  | succ k ih =>
    intro m hm
    rw [List.replicate_succ, regTrace_cons,
      show regStepEvents m randOp = [PortEvent.alloc m.next_port] from rfl,
      ih _ (by rw [randStep_next_port]; exact Nat.mod_lt _ (by decide)),
      randStep_next_port, List.range_succ_eq_map, List.map_cons, List.map_map,
      List.singleton_append]
    congr 1
    · congr 1
      rw [Nat.add_zero, Nat.mod_eq_of_lt hm]
    · have hfe : ((fun i => PortEvent.alloc ((m.next_port + i) % 65536))
            ∘ Nat.succ)
          = fun i => PortEvent.alloc (((m.next_port + 1) % 65536 + i) % 65536) := by
        funext i
        show PortEvent.alloc ((m.next_port + (i + 1)) % 65536) = _
        congr 1
        omega
      rw [hfe]

/-- C8 counterexample: allocate port 10000, free it, then run 65536 further
allocations; the wrapped `u16` counter hands the freed port 10000 out again. -/
theorem C8_counterexample :
    ¬ NoRealloc (regTrace TunnelManager.new reallocOps) := by
  intro hN
  have hstep1 : regStep TunnelManager.new (RegOp.allocCustom 0 "aaa" none)
      = mA := by decide
  have hstep2 : regStep mA (RegOp.remove "aaa") = mB := by decide
  have hev1 : regStepEvents TunnelManager.new (RegOp.allocCustom 0 "aaa" none)
      = [PortEvent.alloc 10000] := by decide
  have hev2 : regStepEvents mA (RegOp.remove "aaa")
      = [PortEvent.free 10000] := by decide
  have htr : regTrace TunnelManager.new reallocOps
      = PortEvent.alloc 10000 :: PortEvent.free 10000 ::
          (List.range 65536).map
            (fun i => PortEvent.alloc ((10001 + i) % 65536)) := by
    rw [show reallocOps = RegOp.allocCustom 0 "aaa" none :: RegOp.remove "aaa"
          :: List.replicate 65536 randOp from rfl,
      regTrace_cons, hev1, hstep1, regTrace_cons, hev2, hstep2,
      regTrace_replicate_rand 65536 mB (by decide)]
    rfl
  have hfree : (regTrace TunnelManager.new reallocOps).get? 1
      = some (PortEvent.free 10000) := by
    rw [htr]
    rfl
  have halloc : (regTrace TunnelManager.new reallocOps).get? 65537
      = some (PortEvent.alloc 10000) := by
    rw [htr, show (65537 : Nat) = 65535 + 1 + 1 from by norm_num,
      List.get?_cons_succ, List.get?_cons_succ, List.get?_map,
      List.get?_range (by norm_num)]
    decide
  exact hN 1 65537 10000 (by norm_num) hfree halloc

/-! ## Claims about the dispatcher, auth, locking and teardown -/

/-- C7: a `request_tunnel` or `register_ssh_key` frame on a session whose
auth has not completed produces exactly one `Not authenticated` error frame
to that peer, changes no state at all (in particular allocates no tunnel),
and leaves the session registered (the dispatcher never closes the
connection). -/
theorem C7_not_authenticated (env : Env) (st : AppState) (client_id : Nat)
    (c : Client) (msg : Msg)
    (hc : mapFind client_id st.clients = some c)
    (hu : c.user_id = none)
    (hm : (∃ pw, msg = Msg.request_tunnel pw)
        ∨ ∃ k, msg = Msg.register_ssh_key k) :
    handle_message env st client_id msg
      = (st, [Event.sendFrame client_id (Frame.error "Not authenticated")]) := by
  rcases hm with ⟨pw, rfl⟩ | ⟨k, rfl⟩ <;>
    simp [handle_message, send_error, hc, hu]

/-- Witness for C7 at a concrete input. -/
theorem C7_not_authenticated_witness :
    handle_message envDefault stUnauthed 1 (Msg.request_tunnel none)
      = (stUnauthed, [Event.sendFrame 1 (Frame.error "Not authenticated")]) :=
  C7_not_authenticated envDefault stUnauthed 1 clientUnauthed
    (Msg.request_tunnel none) (by decide) (by decide) (Or.inl ⟨none, rfl⟩)

/-- C5: the insecure verification mode is selected by the runtime `DEV_MODE`
environment variable inside the production auth path: with the same state
and the same forged token (bad signature, expired, wrong audience),
`DEV_MODE=true` yields `auth_success` while an unset `DEV_MODE` yields the
`Invalid token` error — the auth handler's verification result depends on a
runtime environment variable, as the claim says it must not. -/
theorem C5_dev_mode_runtime_flag :
    (handle_message envDev stUnauthed 1 (Msg.auth (some forgedToken))).2
      = [Event.dbUpsertUser 7 "attacker@example.com",
         Event.sendFrame 1 (Frame.auth_success 7 "attacker@example.com")]
    ∧ (handle_message envDefault stUnauthed 1 (Msg.auth (some forgedToken))).2
      = [Event.sendFrame 1 (Frame.error "Invalid token")]
    ∧ handle_message envDev stUnauthed 1 (Msg.auth (some forgedToken))
      ≠ handle_message envDefault stUnauthed 1 (Msg.auth (some forgedToken)) := by
  refine ⟨by decide, by decide, by decide⟩

/-- C2: the dispatcher's behavior at the failure points after a successful
allocation.  When the nginx bootstrap step fails, registry entry and
persisted record are indeed both absent afterwards, but the error frame is
sent BEFORE the rollback (trace positions 3 < 4, 5) and no proxy teardown
(`nginxRemove`) is ever invoked; when the persistence step fails, nothing
is rolled back and the allocated tunnel stays orphaned in the registry. -/
theorem C2_compensation_behavior :
    handle_message envNginxFail stAuthed 1 (Msg.request_tunnel none)
      = (stRolledBack, nginxFailTrace)
    ∧ mapFind "happy-cat-1000" stRolledBack.tunnel_manager.tunnels = none
    ∧ stRolledBack.db.tunnel_records = []
    ∧ (nginxFailTrace.all fun e =>
        match e with
        | Event.nginxRemove _ => false
        | _ => true) = true
    ∧ nginxFailTrace.get? 3
        = some (Event.sendFrame 1
            (Frame.error "Nginx configuration failed: exit status 1"))
    ∧ nginxFailTrace.get? 4 = some (Event.registryRemove "happy-cat-1000")
    ∧ nginxFailTrace.get? 5 = some (Event.dbDeleteTunnel "happy-cat-1000")
    ∧ (handle_message envDbFail stAuthed 1 (Msg.request_tunnel none)).2
      = [Event.registryInsert "happy-cat-1000",
         Event.dbCreateTunnel "happy-cat-1000",
         Event.sendFrame 1 (Frame.error "Database error")]
    ∧ mapFind "happy-cat-1000"
        (handle_message envDbFail stAuthed 1
          (Msg.request_tunnel none)).1.tunnel_manager.tunnels
      = some tHappy := by
  refine ⟨by decide, by decide, by decide, by decide, by decide, by decide,
    by decide, by decide, by decide⟩

/-- C4: with the existence check and the insert under separate lock
acquisitions, the check-check-insert-insert interleaving lets two sessions
both finish `done` for the same subdomain `demo` (the registry keeps only
the second session's tunnel), whereas sequential execution rejects the
second request — so two concurrent requests CAN both succeed in claiming
the same subdomain. -/
theorem C4_custom_tunnel_race :
    raceResult.2.1 = CustomSession.done raceT1
    ∧ raceResult.2.2 = CustomSession.done raceT2
    ∧ raceT1.subdomain = "demo" ∧ raceT2.subdomain = "demo"
    ∧ raceT1 ≠ raceT2
    ∧ mapFind "demo" raceResult.1.tunnels = some raceT2
    ∧ (create_custom_tunnel
        (create_custom_tunnel TunnelManager.new 1 "demo" none).2
        2 "demo" none).1 = .error "Subdomain already in use" := by
  refine ⟨by decide, by decide, by decide, by decide, by decide, by decide,
    by decide⟩

/-- C3: teardown short-circuits and propagates errors.  With every target
present, a failing removal of the sites-enabled symlink aborts teardown
immediately — config file, landing page, credentials file, certificate and
reload are never attempted; and with all removals succeeding, a
reload-validation failure is returned to the caller instead of being only
logged. -/
theorem C3_teardown_short_circuit :
    remove_tunnel_config
        ({ enabled_link := true, config_file := true, html_file := true,
           passwd_file := true })
        ({ remove_enabled_err := some "permission denied",
           remove_config_err := none, remove_html_err := none,
           remove_passwd_err := none, certbot_ok := true,
           nginx_test_err := none, reload_err := none })
      = (.error "permission denied", [TdStep.removeEnabled])
    ∧ remove_tunnel_config
        ({ enabled_link := true, config_file := true, html_file := true,
           passwd_file := true })
        ({ remove_enabled_err := none, remove_config_err := none,
           remove_html_err := none, remove_passwd_err := none,
           certbot_ok := true,
           nginx_test_err := some "syntax error", reload_err := none })
      = (.error "Nginx configuration test failed: syntax error",
         [TdStep.removeEnabled, TdStep.removeConfig, TdStep.removeHtml,
          TdStep.removePasswd, TdStep.deleteCert, TdStep.nginxTest]) := by
  refine ⟨by decide, by decide⟩

end Tnnl
